import Mathlib

/-!
Verification of the claudedit / vimdown markdown editor core.

The definitions below are a shallow embedding of the Python sources under
`src/vimdown/`:
  * `MarkdownFormatter.format_text`  (markdown_formatter.py)
  * `VimTextArea` and its key handler `on_key`  (vim_modes.py)
  * `CustomDirectoryTree.refresh_tree`  (file_tree.py)
  * `MarkdownEditor` file operations  (main.py)

Strings stand for Python `str`; character-indexed slicing is done on
`String.data` so that everything evaluates by kernel reduction.
The Textual `TextArea` document/selection collaborator is modelled as a flat
character buffer with offset-valued selection endpoints; framework-supplied
cursor actions (`action_cursor_down`, word motions, undo/redo, ...) are
modelled as concrete document operations with the documented behaviour.
-/

/-- Character-count take on a string (Python `s[:n]`). -/
def strTake (s : String) (n : Nat) : String := ⟨s.data.take n⟩

/-- Character-count drop on a string (Python `s[n:]`). -/
def strDrop (s : String) (n : Nat) : String := ⟨s.data.drop n⟩

/-- Character count of a string (Python `len(s)`). -/
def strLen (s : String) : Nat := s.data.length

/-- Split a character list at newline characters (Python `str.split("\n")`):
`""` yields `[""]`, and `n` newlines yield `n+1` pieces. -/
def splitLinesAux : List Char → List Char → List (List Char)
  | [], acc => [acc.reverse]
  | c :: cs, acc =>
    if c = '\n' then acc.reverse :: splitLinesAux cs []
    else splitLinesAux cs (c :: acc)

/-- Python `s.split("\n")`. -/
def splitLines (s : String) : List String :=
  (splitLinesAux s.data []).map fun l => ⟨l⟩

/-- Python `"\n".join(lines)`. -/
def joinLines : List String → String
  | [] => ""
  | [l] => l
  | l :: ls => l ++ "\n" ++ joinLines ls

namespace MarkdownFormatter

/-- `MarkdownFormatter.format_text` from `markdown_formatter.py`: the
string-keyed formatter table, with empty input replaced by the placeholder
`"text"` before dispatch, and unrecognized tags returning the (possibly
replaced) input. -/
def format_text (format_type : String) (selected_text : String) : String :=
  let t := if selected_text = "" then "text" else selected_text
  if format_type = "h1" then "# " ++ t
  else if format_type = "h2" then "## " ++ t
  else if format_type = "h3" then "### " ++ t
  else if format_type = "h4" then "#### " ++ t
  else if format_type = "h5" then "##### " ++ t
  else if format_type = "h6" then "###### " ++ t
  else if format_type = "bold" then "**" ++ t ++ "**"
  else if format_type = "italic" then "*" ++ t ++ "*"
  else if format_type = "bold_italic" then "***" ++ t ++ "***"
  else if format_type = "strikethrough" then "~~" ++ t ++ "~~"
  else if format_type = "code" then "`" ++ t ++ "`"
  else if format_type = "code_block" then "```\n" ++ t ++ "\n```"
  else if format_type = "blockquote" then
    joinLines ((splitLines t).map fun line => "> " ++ line)
  else if format_type = "ul" then
    joinLines ((splitLines t).map fun line => "- " ++ line)
  else if format_type = "ol" then
    joinLines ((splitLines t).enum.map fun p => Nat.repr (p.1 + 1) ++ ". " ++ p.2)
  else if format_type = "link" then "[" ++ t ++ "](url)"
  else if format_type = "image" then "![" ++ t ++ "](image_url)"
  else if format_type = "table" then
    "| " ++ t ++ " | Column 2 |\n|----------|----------|\n| Row 1    | Data     |\n| Row 2    | Data     |"
  else if format_type = "hr" then "---"
  else t

/-- The recognized tags of the formatter table, in table order. -/
def recognizedTags : List String :=
  ["h1", "h2", "h3", "h4", "h5", "h6", "bold", "italic", "bold_italic",
   "strikethrough", "code", "code_block", "blockquote", "ul", "ol",
   "link", "image", "table", "hr"]

end MarkdownFormatter

/-- The Textual `TextArea` collaborator state: a flat character buffer with an
offset-valued selection `(selStart, selEnd)` (`selEnd` is the cursor; the
selection is empty when both coincide) and the edit history used by the
collaborator's undo/redo actions. -/
structure TAState where
  buffer : String
  selStart : Nat
  selEnd : Nat
  undoStack : List (String × Nat × Nat)
  redoStack : List (String × Nat × Nat)
deriving DecidableEq

/-- The current document/selection snapshot, as recorded in the history. -/
def TAState.snapshot (t : TAState) : String × Nat × Nat :=
  (t.buffer, t.selStart, t.selEnd)

/-- Record the current state for undo before an edit, clearing the redo
history (models the collaborator's edit history). -/
def TAState.pushUndo (t : TAState) : TAState :=
  { t with undoStack := t.snapshot :: t.undoStack, redoStack := [] }

/-- Replace the character range between `a` and `b` (in either order) with
`txt`, collapsing the selection to the end of the inserted text (models
`TextArea.replace` / `TextArea.delete`). -/
def TAState.replaceRange (t : TAState) (txt : String) (a b : Nat) : TAState :=
  let lo := min a b
  let hi := max a b
  let t' := t.pushUndo
  { t' with buffer := strTake t.buffer lo ++ txt ++ strDrop t.buffer hi,
            selStart := lo + strLen txt, selEnd := lo + strLen txt }

/-- Insert `txt` at the cursor (models `TextArea.insert`). -/
def TAState.insertText (t : TAState) (txt : String) : TAState :=
  t.replaceRange txt t.selEnd t.selEnd

/-- The document's lines (Python `splitlines` semantics of the collaborator:
a document always has at least one, possibly empty, line). -/
def TAState.lines (t : TAState) : List String := splitLines t.buffer

/-- `get_line`, clamped: missing rows give the empty string. -/
def TAState.getLine (t : TAState) (r : Nat) : String := t.lines.getD r ""

/-- `document.line_count`. -/
def TAState.lineCount (t : TAState) : Nat := t.lines.length

/-- Offset → (row, column) in a line list, clamped to the last line. -/
def rcOfAux : List String → Nat → Nat × Nat
  | [], off => (0, off)
  | [l], off => (0, min off (strLen l))
  | l :: ls, off =>
    if off ≤ strLen l then (0, off)
    else
      let p := rcOfAux ls (off - strLen l - 1)
      (p.1 + 1, p.2)

/-- (row, column) → offset in a line list, clamping the column to the line
length and the row to the last line. -/
def offOfAux : List String → Nat → Nat → Nat
  | [], _, c => c
  | [l], _, c => min c (strLen l)
  | l :: _, 0, c => min c (strLen l)
  | l :: ls, r + 1, c => strLen l + 1 + offOfAux ls r c

/-- `cursor_location` as a (row, column) pair. -/
def TAState.cursorRC (t : TAState) : Nat × Nat := rcOfAux t.lines t.selEnd

/-- Assigning `cursor_location`: collapses the selection to that location
(Textual collaborator semantics). -/
def TAState.setCursorRC (t : TAState) (r c : Nat) : TAState :=
  let off := offOfAux t.lines r c
  { t with selStart := off, selEnd := off }

/-- Word characters, as in the collaborator's word motions. -/
def isWordChar (c : Char) : Bool := c.isAlphanum

/-- Models the collaborator's `action_cursor_word_right`. -/
def TAState.wordRight (t : TAState) : TAState :=
  let rest := t.buffer.data.drop t.selEnd
  let n1 := (rest.takeWhile isWordChar).length
  let n2 := ((rest.drop n1).takeWhile fun c => !isWordChar c).length
  let off := t.selEnd + n1 + n2
  { t with selStart := off, selEnd := off }

/-- Models the collaborator's `action_cursor_word_left`. -/
def TAState.wordLeft (t : TAState) : TAState :=
  let revBefore := (t.buffer.data.take t.selEnd).reverse
  let n1 := (revBefore.takeWhile fun c => !isWordChar c).length
  let n2 := ((revBefore.drop n1).takeWhile isWordChar).length
  { t with selStart := t.selEnd - n1 - n2, selEnd := t.selEnd - n1 - n2 }

/-- Models the collaborator's `action_cursor_down`. -/
def TAState.cursorDown (t : TAState) : TAState :=
  let p := t.cursorRC
  if p.1 + 1 < t.lineCount then t.setCursorRC (p.1 + 1) p.2 else t

/-- Models the collaborator's `action_cursor_up`. -/
def TAState.cursorUp (t : TAState) : TAState :=
  let p := t.cursorRC
  if p.1 > 0 then t.setCursorRC (p.1 - 1) p.2 else t

/-- Models the collaborator's `action_cursor_line_start`. -/
def TAState.cursorLineStart (t : TAState) : TAState :=
  t.setCursorRC t.cursorRC.1 0

/-- Models the collaborator's `action_cursor_line_end`. -/
def TAState.cursorLineEnd (t : TAState) : TAState :=
  t.setCursorRC t.cursorRC.1 (strLen (t.getLine t.cursorRC.1))

/-- Models the collaborator's `action_delete_line`: remove the cursor's line
together with its trailing newline (or its leading one for the last line). -/
def TAState.deleteLine (t : TAState) : TAState :=
  let r := t.cursorRC.1
  let a := offOfAux t.lines r 0
  let b := if r + 1 < t.lineCount then offOfAux t.lines (r + 1) 0
           else strLen t.buffer
  t.replaceRange "" a b

/-- Models the collaborator's `action_undo`. -/
def TAState.undo (t : TAState) : TAState :=
  match t.undoStack with
  | [] => t
  | s :: rest =>
    { buffer := s.1, selStart := s.2.1, selEnd := s.2.2,
      undoStack := rest, redoStack := t.snapshot :: t.redoStack }

/-- Models the collaborator's `action_redo`. -/
def TAState.redo (t : TAState) : TAState :=
  match t.redoStack with
  | [] => t
  | s :: rest =>
    { buffer := s.1, selStart := s.2.1, selEnd := s.2.2,
      undoStack := t.snapshot :: t.undoStack, redoStack := rest }

/-- The `VimTextArea` widget state: the inherited `TextArea` state plus the
`vim_mode` field added by the subclass in `vim_modes.py`. -/
structure VimState where
  ta : TAState
  vim_mode : String
deriving DecidableEq

namespace VimTextArea

/-- `VimTextArea.__init__`: the widget starts in INSERT mode. -/
def init (ta : TAState) : VimState := { ta := ta, vim_mode := "INSERT" }

/-- `_enter_insert_mode`. -/
def enter_insert_mode (s : VimState) : VimState := { s with vim_mode := "INSERT" }

/-- `_enter_normal_mode`: set NORMAL and collapse any non-empty selection to
its start. -/
def enter_normal_mode (s : VimState) : VimState :=
  let ta :=
    if s.ta.selStart ≠ s.ta.selEnd then
      { s.ta with selStart := s.ta.selStart, selEnd := s.ta.selStart }
    else s.ta
  { s with vim_mode := "NORMAL", ta := ta }

/-- `_enter_visual_mode`. -/
def enter_visual_mode (s : VimState) : VimState := { s with vim_mode := "VISUAL" }

/-- `_get_selected_text`: the text between the ordered selection endpoints,
empty when the selection is empty. -/
def get_selected_text (s : VimState) : String :=
  if s.ta.selStart ≠ s.ta.selEnd then
    strDrop (strTake s.ta.buffer (max s.ta.selStart s.ta.selEnd))
      (min s.ta.selStart s.ta.selEnd)
  else ""

/-- `_replace_selection`. -/
def replace_selection (s : VimState) (new_text : String) : VimState :=
  if s.ta.selStart ≠ s.ta.selEnd then
    { s with ta := s.ta.replaceRange new_text s.ta.selStart s.ta.selEnd }
  else s

/-- `_format_markdown` from `vim_modes.py`: the visual-mode key-indexed
formatter table; empty text is replaced by `"text"`, unrecognized keys return
the (possibly replaced) text. -/
def format_markdown (format_type : String) (text : String) : String :=
  let t := if text = "" then "text" else text
  if format_type = "b" then "**" ++ t ++ "**"
  else if format_type = "i" then "*" ++ t ++ "*"
  else if format_type = "s" then "~~" ++ t ++ "~~"
  else if format_type = "c" then "`" ++ t ++ "`"
  else if format_type = "C" then "```\n" ++ t ++ "\n```"
  else if format_type = "1" then "# " ++ t
  else if format_type = "2" then "## " ++ t
  else if format_type = "3" then "### " ++ t
  else if format_type = "4" then "#### " ++ t
  else if format_type = "5" then "##### " ++ t
  else if format_type = "6" then "###### " ++ t
  else if format_type = "l" then "- " ++ t
  else if format_type = "L" then "1. " ++ t
  else if format_type = "q" then "> " ++ t
  else if format_type = "u" then "[" ++ t ++ "](url)"
  else if format_type = "r" then "[" ++ t ++ "][ref]"
  else if format_type = "t" then "| " ++ t ++ " |"
  else t

/-- The visual-mode formatting key set from `_handle_visual_mode_formatting`. -/
def format_keys : List String :=
  ["b", "i", "s", "c", "C", "1", "2", "3", "4", "5", "6",
   "l", "L", "q", "u", "r", "t"]

/-- `_handle_visual_mode_formatting`: (handled?, resulting state). -/
def handle_visual_mode_formatting (s : VimState) (key : String) :
    Bool × VimState :=
  let selected_text := get_selected_text s
  if selected_text = "" then (false, s)
  else if key ∈ format_keys then
    let formatted := format_markdown key selected_text
    (true, enter_normal_mode (replace_selection s formatted))
  else (false, s)

/-- `_handle_normal_mode_commands`: (handled?, resulting state). -/
def handle_normal_mode_commands (s : VimState) (key : String) :
    Bool × VimState :=
  if key = "i" then (true, enter_insert_mode s)
  else if key = "a" then
    let p := s.ta.cursorRC
    let line := s.ta.getLine p.1
    let ta := if p.2 < strLen line then s.ta.setCursorRC p.1 (p.2 + 1) else s.ta
    (true, enter_insert_mode { s with ta := ta })
  else if key = "o" then
    let p := s.ta.cursorRC
    let line := s.ta.getLine p.1
    let ta := (s.ta.setCursorRC p.1 (strLen line)).insertText "\n"
    (true, enter_insert_mode { s with ta := ta })
  else if key = "shift+o" then
    let p := s.ta.cursorRC
    let ta := ((s.ta.setCursorRC p.1 0).insertText "\n").setCursorRC p.1 0
    (true, enter_insert_mode { s with ta := ta })
  else if key = "shift+a" then
    (true, enter_insert_mode { s with ta := s.ta.cursorLineEnd })
  else if key = "shift+i" then
    (true, enter_insert_mode { s with ta := s.ta.cursorLineStart })
  else if key = "v" then
    let s' := enter_visual_mode s
    (true, { s' with ta := { s'.ta with selStart := s'.ta.selEnd } })
  else if key = "h" then
    let p := s.ta.cursorRC
    let ta :=
      if p.2 > 0 then s.ta.setCursorRC p.1 (p.2 - 1)
      else if p.1 > 0 then
        s.ta.setCursorRC (p.1 - 1) (strLen (s.ta.getLine (p.1 - 1)))
      else s.ta
    (true, { s with ta := ta })
  else if key = "l" then
    let p := s.ta.cursorRC
    let line := s.ta.getLine p.1
    let ta :=
      if p.2 < strLen line then s.ta.setCursorRC p.1 (p.2 + 1)
      else if p.1 < s.ta.lineCount - 1 then s.ta.setCursorRC (p.1 + 1) 0
      else s.ta
    (true, { s with ta := ta })
  else if key = "j" then (true, { s with ta := s.ta.cursorDown })
  else if key = "k" then (true, { s with ta := s.ta.cursorUp })
  else if key = "w" then (true, { s with ta := s.ta.wordRight })
  else if key = "b" then (true, { s with ta := s.ta.wordLeft })
  else if key = "x" then
    let p := s.ta.cursorRC
    let line := s.ta.getLine p.1
    let ta :=
      if p.2 < strLen line then
        let a := offOfAux s.ta.lines p.1 p.2
        s.ta.replaceRange "" a (a + 1)
      else s.ta
    (true, { s with ta := ta })
  else if key = "d" then (true, { s with ta := s.ta.deleteLine })
  else if key = "u" then (true, { s with ta := s.ta.undo })
  else if key = "ctrl+r" then (true, { s with ta := s.ta.redo })
  else if key = "shift+g" then
    let last := s.ta.lineCount - 1
    (true, { s with ta := s.ta.setCursorRC last (strLen (s.ta.getLine last)) })
  else if key = "g" then (true, { s with ta := s.ta.setCursorRC 0 0 })
  else if key = "0" then (true, { s with ta := s.ta.cursorLineStart })
  else if key = "shift+4" then (true, { s with ta := s.ta.cursorLineEnd })
  else (false, s)

/-- The VISUAL-mode branch of `on_key`: formatting keys first, then motion
keys (left to the collaborator, state unchanged here), modifier keys ignored,
and any other key exits to NORMAL. -/
def handle_visual_key (s : VimState) (key : String) : VimState :=
  let r := handle_visual_mode_formatting s key
  if r.1 then r.2
  else if key ∈ (["h", "j", "k", "l", "w", "b", "0", "shift+4"] : List String)
    then s
  else if key ∈ (["shift", "ctrl", "alt"] : List String) then s
  else enter_normal_mode s

/-- `VimTextArea.on_key`: auto-promotion to VISUAL on a non-empty selection,
escape to NORMAL from anywhere, then the mode-indexed branches. Only the
state effect is modelled; `event.prevent_default()` has no state content. -/
def on_key (s : VimState) (key : String) : VimState :=
  let s :=
    if s.ta.selStart ≠ s.ta.selEnd ∧ s.vim_mode ≠ "VISUAL" ∧ key ≠ "escape"
      then enter_visual_mode s
    else s
  if key = "escape" then enter_normal_mode s
  else if s.vim_mode = "VISUAL" then handle_visual_key s key
  else if s.vim_mode = "NORMAL" then (handle_normal_mode_commands s key).2
  else if s.vim_mode = "INSERT" then
    if key = "ctrl+c" then enter_normal_mode s else s
  else s

end VimTextArea

/-- The visual-key to Formatter-tag correspondence as the specification's
claim states it: `b`↦bold, `i`↦italic, `s`↦strikethrough, `c`↦code,
`C`↦code_block, `1..6`↦h1..h6, `l`↦ul, `L`↦ol, `q`↦blockquote, `u`↦link,
`r`↦the reference-link construct (the Formatter recognizes no such tag, so
`"ref"` stands for it and falls to the unrecognized-tag arm) and `t`↦table. -/
def mappedTag (k : String) : String :=
  if k = "b" then "bold"
  else if k = "i" then "italic"
  else if k = "s" then "strikethrough"
  else if k = "c" then "code"
  else if k = "C" then "code_block"
  else if k = "1" then "h1"
  else if k = "2" then "h2"
  else if k = "3" then "h3"
  else if k = "4" then "h4"
  else if k = "5" then "h5"
  else if k = "6" then "h6"
  else if k = "l" then "ul"
  else if k = "L" then "ol"
  else if k = "q" then "blockquote"
  else if k = "u" then "link"
  else if k = "r" then "ref"
  else if k = "t" then "table"
  else k

/-- The mode-invariant predicate: the `vim_mode` field holds one of the three
documented mode strings. -/
def ModeOK (m : String) : Prop :=
  m = "INSERT" ∨ m = "NORMAL" ∨ m = "VISUAL"

/-- Kind of a filesystem child as tested by `refresh_tree` (`is_dir` /
`is_file`; paths that are neither, e.g. broken symlinks, are skipped by both
filters). -/
inductive FSKind
  | dir
  | file
  | other
deriving DecidableEq

/-- One child of the current directory, as produced by `iterdir`. -/
structure FSChild where
  name : String
  kind : FSKind
deriving DecidableEq

/-- Input to `refresh_tree`: whether `current_path` is the filesystem root
(`current_path.parent == current_path`) and the directory's children in
arbitrary filesystem order. Children of one directory share the parent path,
so Python's sorting of `Path` objects coincides with sorting their names. -/
structure DirInput where
  isRoot : Bool
  children : List FSChild
deriving DecidableEq

/-- A row of the rendered tree: the parent link `📁 ..`, a directory node, or
a file node. -/
inductive DirEntry
  | parentLink : DirEntry
  | dirE : String → DirEntry
  | fileE : String → DirEntry
deriving DecidableEq

/-- Lexicographic `≤` on character lists by code point: Python's string
comparison, as used by `sorted` on same-directory `Path`s. -/
def charListLe : List Char → List Char → Bool
  | [], _ => true
  | _ :: _, [] => false
  | a :: as, b :: bs =>
    if a = b then charListLe as bs
    else decide (a.toNat < b.toNat)

/-- Name order on children (Python `sorted` on same-directory `Path`s). -/
def nameLE (a b : FSChild) : Prop := charListLe a.name.data b.name.data = true

instance : DecidableRel nameLE :=
  fun a b => inferInstanceAs (Decidable (charListLe a.name.data b.name.data = true))

/-- `CustomDirectoryTree.refresh_tree` from `file_tree.py`, as the ordered
sequence of entries added under the tree root: the parent link unless the
current path is the filesystem root, then the subdirectories sorted, then the
files sorted. -/
def refresh_tree (d : DirInput) : List DirEntry :=
  (if d.isRoot then [] else [DirEntry.parentLink])
  ++ (List.insertionSort nameLE
        (d.children.filter fun c => decide (c.kind = FSKind.dir))).map
      (fun c => DirEntry.dirE c.name)
  ++ (List.insertionSort nameLE
        (d.children.filter fun c => decide (c.kind = FSKind.file))).map
      (fun c => DirEntry.fileE c.name)

/-- The `MarkdownEditor` session fields relevant to the file operations in
`main.py`: the current file identity, the dirty flag, and the editor text
(the collaborator `TextArea`'s content). -/
structure EditorState where
  current_file : Option String
  is_modified : Bool
  editor_text : String
deriving DecidableEq

namespace MarkdownEditor

/-- `MarkdownEditor.open_file_path`: `read_result` is the ReadFile
collaborator's outcome (`none` = `read_text` raised). The whole body sits in
a `try` whose `except` does nothing, and the read is its first statement, so
on failure nothing is mutated; on success the text is replaced, the file
identity set, and the dirty flag cleared. Total: it never raises. -/
def open_file_path (s : EditorState) (path : String)
    (read_result : Option String) : EditorState :=
  match read_result with
  | none => s
  | some content =>
    { s with editor_text := content, current_file := some path,
             is_modified := false }

/-- `MarkdownEditor.save_current_file`: `write_ok` is the WriteFile
collaborator's outcome (`false` = `write_text` raised). Returns the new
state, the returned boolean, and the attempted writes as (path, content)
pairs. Total: it never raises (the `except` arm returns `False`). -/
def save_current_file (s : EditorState) (write_ok : Bool) :
    EditorState × Bool × List (String × String) :=
  match s.current_file with
  | none => (s, false, [])
  | some p =>
    if write_ok then
      ({ s with is_modified := false }, true, [(p, s.editor_text)])
    else (s, false, [(p, s.editor_text)])

/-- `MarkdownEditor.save_file_as`: like `save_current_file` but writing to
`path` and, on success, updating the file identity to `path`. Total. -/
def save_file_as (s : EditorState) (path : String) (write_ok : Bool) :
    EditorState × Bool × List (String × String) :=
  if write_ok then
    ({ s with current_file := some path, is_modified := false }, true,
     [(path, s.editor_text)])
  else (s, false, [(path, s.editor_text)])

end MarkdownEditor

/-! ## Helper lemmas -/

/-- Characters with equal code points are equal. -/
theorem char_eq_of_toNat_eq {a b : Char} (h : a.toNat = b.toNat) : a = b :=
  Char.eq_of_val_eq (UInt32.eq_of_val_eq (Fin.eq_of_val_eq h))

/-- `charListLe` is total. -/
theorem charListLe_total : ∀ as bs : List Char,
    charListLe as bs = true ∨ charListLe bs as = true
  | [], _ => Or.inl rfl
  | _ :: _, [] => Or.inr rfl
  | a :: as, b :: bs => by
    by_cases hab : a = b
    · subst hab
      rcases charListLe_total as bs with h | h
      · exact Or.inl (by simpa [charListLe] using h)
      · exact Or.inr (by simpa [charListLe] using h)
    · have hne : a.toNat ≠ b.toNat := fun e => hab (char_eq_of_toNat_eq e)
      have hba : ¬b = a := fun e => hab e.symm
      rcases Nat.lt_or_ge a.toNat b.toNat with h | h
      · exact Or.inl (by simp [charListLe, hab, h])
      · have h' : b.toNat < a.toNat := lt_of_le_of_ne h fun e => hne e.symm
        exact Or.inr (by simp [charListLe, hba, h'])

/-- `charListLe` is transitive. -/
theorem charListLe_trans : ∀ as bs cs : List Char,
    charListLe as bs = true → charListLe bs cs = true →
    charListLe as cs = true
  | [], _, _, _, _ => rfl
  | _ :: _, [], _, h1, _ => by simp [charListLe] at h1
  | _ :: _, _ :: _, [], _, h2 => by simp [charListLe] at h2
  | a :: as, b :: bs, c :: cs, h1, h2 => by
    by_cases hab : a = b <;> by_cases hbc : b = c
    · subst hab; subst hbc
      simp only [charListLe, if_pos rfl] at h1 h2 ⊢
      exact charListLe_trans as bs cs h1 h2
    · subst hab
      simp only [charListLe, if_pos rfl] at h1
      simp only [charListLe, if_neg hbc, decide_eq_true_eq] at h2
      have hac : a ≠ c := fun e => absurd h2 (e ▸ lt_irrefl _)
      simp [charListLe, hac, h2]
    · subst hbc
      simp only [charListLe, if_neg hab, decide_eq_true_eq] at h1
      have hac : a ≠ b := hab
      simp [charListLe, hac, h1]
    · simp only [charListLe, if_neg hab, decide_eq_true_eq] at h1
      simp only [charListLe, if_neg hbc, decide_eq_true_eq] at h2
      have hlt : a.toNat < c.toNat := Nat.lt_trans h1 h2
      have hac : a ≠ c := fun e => absurd hlt (e ▸ lt_irrefl _)
      simp [charListLe, hac, hlt]

instance : IsTotal FSChild nameLE :=
  ⟨fun a b => charListLe_total a.name.data b.name.data⟩

instance : IsTrans FSChild nameLE :=
  ⟨fun a b c => charListLe_trans a.name.data b.name.data c.name.data⟩

/-! ## Claim theorems -/

/-- C4: in VISUAL mode with the selection covering exactly "hello" inside
"say hello now", pressing `b` replaces the selection so the buffer reads
"say **hello** now" and the mode becomes NORMAL. -/
theorem C4_visual_bold_hello :
    (VimTextArea.on_key ⟨⟨"say hello now", 4, 9, [], []⟩, "VISUAL"⟩ "b").ta.buffer
      = "say **hello** now"
    ∧ (VimTextArea.on_key ⟨⟨"say hello now", 4, 9, [], []⟩, "VISUAL"⟩ "b").vim_mode
      = "NORMAL" := by
  exact ⟨rfl, rfl⟩

/-- C5 (counterexample): the claim that the table tag's output ignores the
input content fails — inputs "a" and "b" give different table outputs. -/
theorem C5_counterexample :
    MarkdownFormatter.format_text "table" "a"
      ≠ MarkdownFormatter.format_text "table" "b" := by
  decide

/-- C5 (amended): `format("hr", ·)` does ignore its input entirely, but the
table tag's output embeds the (placeholder-substituted) input as the header
of column 1: `format("table", "")` equals `format("table", "text")`, and any
non-empty input appears verbatim in the table output, so the table output is
not input-independent. -/
theorem C5_amended :
    (∀ t1 t2 : String,
       MarkdownFormatter.format_text "hr" t1 = MarkdownFormatter.format_text "hr" t2)
    ∧ MarkdownFormatter.format_text "table" ""
        = MarkdownFormatter.format_text "table" "text"
    ∧ (∀ t : String, t ≠ "" →
        MarkdownFormatter.format_text "table" t =
          "| " ++ t ++ " | Column 2 |\n|----------|----------|\n| Row 1    | Data     |\n| Row 2    | Data     |") := by
  refine ⟨fun t1 t2 => rfl, rfl, fun t ht => ?_⟩
  simp [MarkdownFormatter.format_text, ht]

/-- C5 (witness for the amended theorem's hypothesis). -/
theorem C5_amended_witness :
    ("x" : String) ≠ ""
    ∧ MarkdownFormatter.format_text "table" "x" =
        "| " ++ "x" ++ " | Column 2 |\n|----------|----------|\n| Row 1    | Data     |\n| Row 2    | Data     |" :=
  ⟨by decide, C5_amended.2.2 "x" (by decide)⟩

/-- C6 (counterexample): for an unrecognized tag the empty string is not
returned unchanged — the formatter returns the placeholder `"text"`. -/
theorem C6_counterexample :
    MarkdownFormatter.format_text "zzz" "" ≠ "" := by
  decide

/-- C6 (amended): for every tag outside the recognized tag table the
formatter is total and returns non-empty input unchanged; the empty string,
however, is first replaced by the placeholder, so the result is `"text"`,
not `""`. -/
theorem C6_amended (tag : String)
    (h : tag ∉ MarkdownFormatter.recognizedTags) :
    (∀ text : String, text ≠ "" → MarkdownFormatter.format_text tag text = text)
    ∧ MarkdownFormatter.format_text tag "" = "text" := by
  simp only [MarkdownFormatter.recognizedTags, List.mem_cons, List.not_mem_nil,
    or_false, not_or] at h
  obtain ⟨h1, h2, h3, h4, h5, h6, h7, h8, h9, h10, h11, h12, h13, h14, h15,
    h16, h17, h18, h19⟩ := h
  constructor
  · intro text ht
    simp [MarkdownFormatter.format_text, ht, h1, h2, h3, h4, h5, h6, h7, h8,
      h9, h10, h11, h12, h13, h14, h15, h16, h17, h18, h19]
  · simp [MarkdownFormatter.format_text, h1, h2, h3, h4, h5, h6, h7, h8, h9,
      h10, h11, h12, h13, h14, h15, h16, h17, h18, h19]

/-- C6 (witness for the amended theorem's hypotheses). -/
theorem C6_amended_witness :
    "zzz" ∉ MarkdownFormatter.recognizedTags
    ∧ MarkdownFormatter.format_text "zzz" "abc" = "abc"
    ∧ MarkdownFormatter.format_text "zzz" "" = "text" :=
  ⟨by decide, (C6_amended "zzz" (by decide)).1 "abc" (by decide),
    (C6_amended "zzz" (by decide)).2⟩

/-- C8: when the ReadFile / WriteFile collaborator fails, `open_file_path`
leaves the whole session state unchanged, and `save_current_file` /
`save_file_as` return `false` and leave FileIdentity (`current_file`) and
DirtyFlag (`is_modified`) unchanged. (All three are total Lean functions:
no exception escapes.) -/
theorem C8_io_failure_recovery :
    (∀ (s : EditorState) (path : String),
       MarkdownEditor.open_file_path s path none = s)
    ∧ (∀ s : EditorState,
        (MarkdownEditor.save_current_file s false).1.current_file = s.current_file
        ∧ (MarkdownEditor.save_current_file s false).1.is_modified = s.is_modified
        ∧ (MarkdownEditor.save_current_file s false).2.1 = false)
    ∧ (∀ (s : EditorState) (path : String),
        (MarkdownEditor.save_file_as s path false).1.current_file = s.current_file
        ∧ (MarkdownEditor.save_file_as s path false).1.is_modified = s.is_modified
        ∧ (MarkdownEditor.save_file_as s path false).2.1 = false) := by
  refine ⟨fun s path => rfl, fun s => ?_, fun s path => ?_⟩
  · cases h : s.current_file <;> simp [MarkdownEditor.save_current_file, h]
  · simp [MarkdownEditor.save_file_as]

/-- C9: `save_current_file` with no FileIdentity set returns `false`,
attempts no write, and leaves the state (hence the DirtyFlag) unchanged,
whatever the WriteFile collaborator would have answered. -/
theorem C9_save_without_file (s : EditorState) (write_ok : Bool)
    (h : s.current_file = none) :
    MarkdownEditor.save_current_file s write_ok = (s, false, []) := by
  simp [MarkdownEditor.save_current_file, h]

/-- C9 (witness). -/
theorem C9_save_without_file_witness :
    MarkdownEditor.save_current_file ⟨none, true, "x"⟩ true
      = (⟨none, true, "x"⟩, false, []) :=
  C9_save_without_file ⟨none, true, "x"⟩ true rfl

/-- C1 (counterexample): in VISUAL mode with the whole buffer "hello"
selected, pressing `t` yields the single table cell `| hello |`, not the
Formatter's table template `Formatter.format("table", "hello")`, so the
VISUAL keymap does not refine to `Formatter.format(mappedTag, ·)`. -/
theorem C1_counterexample :
    (VimTextArea.on_key ⟨⟨"hello", 0, 5, [], []⟩, "VISUAL"⟩ "t").ta.buffer
      = "| hello |"
    ∧ (VimTextArea.on_key ⟨⟨"hello", 0, 5, [], []⟩, "VISUAL"⟩ "t").ta.buffer
      ≠ MarkdownFormatter.format_text (mappedTag "t") "hello" := by
  exact ⟨rfl, by decide⟩

/-- C7: `refresh_tree` lists a parent-link entry first exactly when the
current path is not the filesystem root, then all subdirectories sorted
alphabetically, then all files sorted alphabetically; on the claim's
concrete directory (subdirectories `b`, `a`; files `z.md`, `y.txt`; not at
the root) the order is parent-link, `a`, `b`, `y.txt`, `z.md`. -/
theorem C7_refresh_tree_order :
    (∀ d : DirInput, ∃ ds fs : List FSChild,
      refresh_tree d
        = (if d.isRoot then [] else [DirEntry.parentLink])
          ++ ds.map (fun c => DirEntry.dirE c.name)
          ++ fs.map (fun c => DirEntry.fileE c.name)
      ∧ List.Sorted nameLE ds
      ∧ List.Sorted nameLE fs
      ∧ ds.Perm (d.children.filter fun c => decide (c.kind = FSKind.dir))
      ∧ fs.Perm (d.children.filter fun c => decide (c.kind = FSKind.file)))
    ∧ refresh_tree
        ⟨false, [⟨"b", .dir⟩, ⟨"a", .dir⟩, ⟨"z.md", .file⟩, ⟨"y.txt", .file⟩]⟩
      = [DirEntry.parentLink, .dirE "a", .dirE "b", .fileE "y.txt",
         .fileE "z.md"] := by
  constructor
  · intro d
    exact ⟨_, _, rfl, List.sorted_insertionSort _ _,
      List.sorted_insertionSort _ _, List.perm_insertionSort _ _,
      List.perm_insertionSort _ _⟩
  · decide

/-! ## Helper lemmas about the key handler -/

namespace VimTextArea

/-- `_enter_normal_mode` always leaves an empty (collapsed) selection. -/
theorem enter_normal_mode_collapsed (s : VimState) :
    (enter_normal_mode s).ta.selStart = (enter_normal_mode s).ta.selEnd := by
  unfold enter_normal_mode
  by_cases h : s.ta.selStart = s.ta.selEnd <;> simp [h]

/-- `_enter_normal_mode` collapses the selection to its former start. -/
theorem enter_normal_mode_sel (s : VimState) :
    (enter_normal_mode s).ta.selStart = s.ta.selStart
    ∧ (enter_normal_mode s).ta.selEnd = s.ta.selStart := by
  unfold enter_normal_mode
  by_cases h : s.ta.selStart = s.ta.selEnd <;> simp [h]

/-- `_handle_visual_mode_formatting` either reports unhandled with the state
untouched, or reports handled with a state that went through
`_enter_normal_mode`. -/
theorem hvmf_cases (s : VimState) (k : String) :
    handle_visual_mode_formatting s k = (false, s)
    ∨ ∃ s', handle_visual_mode_formatting s k = (true, enter_normal_mode s') := by
  simp only [handle_visual_mode_formatting]
  split_ifs
  · exact Or.inl rfl
  · exact Or.inr ⟨_, rfl⟩
  · exact Or.inl rfl

/-- The VISUAL branch either leaves the state untouched or produces a state
that went through `_enter_normal_mode`. -/
theorem handle_visual_key_cases (s : VimState) (k : String) :
    handle_visual_key s k = s
    ∨ ∃ s', handle_visual_key s k = enter_normal_mode s' := by
  rcases hvmf_cases s k with h | ⟨s', h⟩
  · unfold handle_visual_key
    rw [h, if_neg (by simp : ¬((false, s).1 = true))]
    split_ifs
    · exact Or.inl rfl
    · exact Or.inl rfl
    · exact Or.inr ⟨s, rfl⟩
  · unfold handle_visual_key
    rw [h, if_pos (rfl : (true, enter_normal_mode s').1 = true)]
    exact Or.inr ⟨s', rfl⟩

/-- `escape` always routes through `_enter_normal_mode`. -/
theorem on_key_escape (s : VimState) :
    on_key s "escape" = enter_normal_mode s := by
  unfold on_key
  rw [if_neg (show ¬(s.ta.selStart ≠ s.ta.selEnd ∧ s.vim_mode ≠ "VISUAL"
        ∧ ("escape" : String) ≠ "escape") from fun h => h.2.2 rfl)]
  rw [if_pos (rfl : ("escape" : String) = "escape")]

/-- With a non-empty selection outside VISUAL mode, a non-escape key is
processed by the VISUAL branch on the auto-promoted state. -/
theorem on_key_promo (s : VimState) (k : String)
    (hsel : s.ta.selStart ≠ s.ta.selEnd) (hmode : s.vim_mode ≠ "VISUAL")
    (hesc : k ≠ "escape") :
    on_key s k = handle_visual_key (enter_visual_mode s) k := by
  unfold on_key
  rw [if_neg hesc,
    if_pos (show s.ta.selStart ≠ s.ta.selEnd ∧ s.vim_mode ≠ "VISUAL" ∧ k ≠ "escape" from
      ⟨hsel, hmode, hesc⟩),
    if_pos (show (enter_visual_mode s).vim_mode = "VISUAL" from rfl)]

/-- Without auto-promotion, `on_key` is the plain mode dispatch. -/
theorem on_key_no_promo (s : VimState) (k : String) (hesc : k ≠ "escape")
    (hpromo : ¬(s.ta.selStart ≠ s.ta.selEnd ∧ s.vim_mode ≠ "VISUAL" ∧ k ≠ "escape")) :
    on_key s k =
      (if s.vim_mode = "VISUAL" then handle_visual_key s k
       else if s.vim_mode = "NORMAL" then (handle_normal_mode_commands s k).2
       else if s.vim_mode = "INSERT" then
         (if k = "ctrl+c" then enter_normal_mode s else s)
       else s) := by
  unfold on_key
  rw [if_neg hesc, if_neg hpromo]

/-- Every NORMAL-mode command leaves the mode field at `"INSERT"`,
`"VISUAL"`, or unchanged. -/
theorem hnc_mode (s : VimState) (k : String) :
    (handle_normal_mode_commands s k).2.vim_mode = "INSERT"
    ∨ (handle_normal_mode_commands s k).2.vim_mode = "VISUAL"
    ∨ (handle_normal_mode_commands s k).2.vim_mode = s.vim_mode := by
  unfold handle_normal_mode_commands
  by_cases h1 : k = "i"
  · rw [if_pos h1]; exact Or.inl rfl
  rw [if_neg h1]
  by_cases h2 : k = "a"
  · rw [if_pos h2]; exact Or.inl rfl
  rw [if_neg h2]
  by_cases h3 : k = "o"
  · rw [if_pos h3]; exact Or.inl rfl
  rw [if_neg h3]
  by_cases h4 : k = "shift+o"
  · rw [if_pos h4]; exact Or.inl rfl
  rw [if_neg h4]
  by_cases h5 : k = "shift+a"
  · rw [if_pos h5]; exact Or.inl rfl
  rw [if_neg h5]
  by_cases h6 : k = "shift+i"
  · rw [if_pos h6]; exact Or.inl rfl
  rw [if_neg h6]
  by_cases h7 : k = "v"
  · rw [if_pos h7]; exact Or.inr (Or.inl rfl)
  rw [if_neg h7]
  by_cases h8 : k = "h"
  · rw [if_pos h8]; exact Or.inr (Or.inr rfl)
  rw [if_neg h8]
  by_cases h9 : k = "l"
  · rw [if_pos h9]; exact Or.inr (Or.inr rfl)
  rw [if_neg h9]
  by_cases h10 : k = "j"
  · rw [if_pos h10]; exact Or.inr (Or.inr rfl)
  rw [if_neg h10]
  by_cases h11 : k = "k"
  · rw [if_pos h11]; exact Or.inr (Or.inr rfl)
  rw [if_neg h11]
  by_cases h12 : k = "w"
  · rw [if_pos h12]; exact Or.inr (Or.inr rfl)
  rw [if_neg h12]
  by_cases h13 : k = "b"
  · rw [if_pos h13]; exact Or.inr (Or.inr rfl)
  rw [if_neg h13]
  by_cases h14 : k = "x"
  · rw [if_pos h14]; exact Or.inr (Or.inr rfl)
  rw [if_neg h14]
  by_cases h15 : k = "d"
  · rw [if_pos h15]; exact Or.inr (Or.inr rfl)
  rw [if_neg h15]
  by_cases h16 : k = "u"
  · rw [if_pos h16]; exact Or.inr (Or.inr rfl)
  rw [if_neg h16]
  by_cases h17 : k = "ctrl+r"
  · rw [if_pos h17]; exact Or.inr (Or.inr rfl)
  rw [if_neg h17]
  by_cases h18 : k = "shift+g"
  · rw [if_pos h18]; exact Or.inr (Or.inr rfl)
  rw [if_neg h18]
  by_cases h19 : k = "g"
  · rw [if_pos h19]; exact Or.inr (Or.inr rfl)
  rw [if_neg h19]
  by_cases h20 : k = "0"
  · rw [if_pos h20]; exact Or.inr (Or.inr rfl)
  rw [if_neg h20]
  by_cases h21 : k = "shift+4"
  · rw [if_pos h21]; exact Or.inr (Or.inr rfl)
  rw [if_neg h21]
  exact Or.inr (Or.inr rfl)

/-- The VISUAL branch leaves the mode at `"NORMAL"` or unchanged. -/
theorem hvk_mode (s : VimState) (k : String) :
    (handle_visual_key s k).vim_mode = "NORMAL"
    ∨ (handle_visual_key s k).vim_mode = s.vim_mode := by
  rcases handle_visual_key_cases s k with h | ⟨s', h⟩
  · exact Or.inr (by rw [h])
  · exact Or.inl (by rw [h]; rfl)

/-- One key event preserves the three-valued mode invariant. -/
theorem on_key_mode_ok (s : VimState) (k : String) (h : ModeOK s.vim_mode) :
    ModeOK ((on_key s k).vim_mode) := by
  by_cases hesc : k = "escape"
  · subst hesc
    rw [on_key_escape]
    exact Or.inr (Or.inl rfl)
  · by_cases hpromo : s.ta.selStart ≠ s.ta.selEnd ∧ s.vim_mode ≠ "VISUAL" ∧ k ≠ "escape"
    · rw [on_key_promo s k hpromo.1 hpromo.2.1 hesc]
      rcases hvk_mode (enter_visual_mode s) k with hm | hm <;> rw [hm]
      · exact Or.inr (Or.inl rfl)
      · exact Or.inr (Or.inr rfl)
    · rw [on_key_no_promo s k hesc hpromo]
      by_cases hv : s.vim_mode = "VISUAL"
      · rw [if_pos hv]
        rcases hvk_mode s k with hm | hm <;> rw [hm]
        · exact Or.inr (Or.inl rfl)
        · exact h
      · rw [if_neg hv]
        by_cases hn : s.vim_mode = "NORMAL"
        · rw [if_pos hn]
          rcases hnc_mode s k with hm | hm | hm <;> rw [hm]
          · exact Or.inl rfl
          · exact Or.inr (Or.inr rfl)
          · exact h
        · rw [if_neg hn]
          by_cases hi : s.vim_mode = "INSERT"
          · rw [if_pos hi]
            by_cases hc : k = "ctrl+c"
            · rw [if_pos hc]; exact Or.inr (Or.inl rfl)
            · rw [if_neg hc]; exact h
          · rw [if_neg hi]; exact h

/-- Any key sequence preserves the three-valued mode invariant. -/
theorem foldl_mode_ok (keys : List String) (s : VimState) (h : ModeOK s.vim_mode) :
    ModeOK ((keys.foldl on_key s).vim_mode) := by
  induction keys generalizing s with
  | nil => exact h
  | cons k ks ih => exact ih (on_key s k) (on_key_mode_ok s k h)

end VimTextArea

/-- `splitLinesAux` on a newline-free list yields a single piece. -/
theorem splitLinesAux_no_newline : ∀ (cs acc : List Char), '\n' ∉ cs →
    splitLinesAux cs acc = [acc.reverse ++ cs]
  | [], acc, _ => by simp [splitLinesAux]
  | c :: cs, acc, h => by
    have hc : ¬c = '\n' := fun e => h (e ▸ List.mem_cons_self c cs)
    have hcs : '\n' ∉ cs := fun m => h (List.mem_cons_of_mem c m)
    rw [splitLinesAux, if_neg hc, splitLinesAux_no_newline cs (c :: acc) hcs]
    simp

/-- A newline-free string splits into the single line equal to itself. -/
theorem splitLines_single (t : String) (h : '\n' ∉ t.data) :
    splitLines t = [t] := by
  unfold splitLines
  rw [splitLinesAux_no_newline t.data [] h]
  simp

/-- The visual-mode formatter table agrees with the Formatter's table on the
keys whose output shape is text-independent of line structure. -/
theorem format_agree_simple_keys (t : String) :
    ∀ k ∈ (["b", "i", "s", "c", "C", "1", "2", "3", "4", "5", "6", "u"] : List String),
    VimTextArea.format_markdown k t = MarkdownFormatter.format_text (mappedTag k) t := by
  intro k hk
  fin_cases hk <;> rfl

/-- On single-line non-empty text, the visual-mode formatter also agrees with
the Formatter on the per-line tags `l`/ul, `L`/ol and `q`/blockquote. -/
theorem format_agree_line_keys (t : String) (hne : t ≠ "") (h : '\n' ∉ t.data) :
    VimTextArea.format_markdown "l" t = MarkdownFormatter.format_text (mappedTag "l") t
    ∧ VimTextArea.format_markdown "L" t = MarkdownFormatter.format_text (mappedTag "L") t
    ∧ VimTextArea.format_markdown "q" t = MarkdownFormatter.format_text (mappedTag "q") t := by
  have hs : splitLines t = [t] := splitLines_single t h
  have h1 : ((Nat.toDigits 10 1).asString : String) = "1" := rfl
  refine ⟨?_, ?_, ?_⟩ <;>
    simp [VimTextArea.format_markdown, MarkdownFormatter.format_text, mappedTag,
      hs, hne, joinLines, Nat.repr, h1]

/-- A VISUAL formatting key on a non-empty selection replaces the selection
with the visual-mode formatter's output and routes through
`_enter_normal_mode`. -/
theorem on_key_visual_format (s : VimState) (k : String)
    (hv : s.vim_mode = "VISUAL") (hk : k ∈ VimTextArea.format_keys)
    (hsel : VimTextArea.get_selected_text s ≠ "") :
    VimTextArea.on_key s k
      = VimTextArea.enter_normal_mode
          (VimTextArea.replace_selection s
            (VimTextArea.format_markdown k (VimTextArea.get_selected_text s))) := by
  have hesc : k ≠ "escape" := by
    have hall : ∀ x ∈ VimTextArea.format_keys, x ≠ "escape" := by decide
    exact hall k hk
  have hpromo : ¬(s.ta.selStart ≠ s.ta.selEnd ∧ s.vim_mode ≠ "VISUAL" ∧ k ≠ "escape") :=
    fun h => h.2.1 hv
  rw [VimTextArea.on_key_no_promo s k hesc hpromo, if_pos hv]
  unfold VimTextArea.handle_visual_key
  simp only [VimTextArea.handle_visual_mode_formatting]
  rw [if_neg hsel, if_pos hk]
  simp

/-- C1 (amended): pressing a formatting key `k ∈ {b,i,s,c,C,1..6,l,L,q,u,r,t}`
in VISUAL mode with non-empty selected text `t` replaces the selection with
the output of the visual-mode formatter `_format_markdown(k, t)` and
transitions the mode to NORMAL. This output coincides with
`Formatter.format(mappedTag, t)` for `k ∈ {b,i,s,c,C,1..6,u}` for all `t`,
and for `k ∈ {l,L,q}` whenever `t` is a single non-empty line — but not in
general: `t` produces a single table cell rather than the Formatter's table
template, `r` has no Formatter counterpart, and `l`,`L`,`q` differ from
ul/ol/blockquote on multi-line selections. -/
theorem C1_amended_visual_formatting :
    (∀ (s : VimState) (k : String), s.vim_mode = "VISUAL" →
       k ∈ VimTextArea.format_keys → VimTextArea.get_selected_text s ≠ "" →
       VimTextArea.on_key s k
         = VimTextArea.enter_normal_mode
             (VimTextArea.replace_selection s
               (VimTextArea.format_markdown k (VimTextArea.get_selected_text s)))
       ∧ (VimTextArea.on_key s k).vim_mode = "NORMAL")
    ∧ (∀ t : String,
        ∀ k ∈ (["b", "i", "s", "c", "C", "1", "2", "3", "4", "5", "6", "u"] : List String),
        VimTextArea.format_markdown k t = MarkdownFormatter.format_text (mappedTag k) t)
    ∧ (∀ t : String, t ≠ "" → '\n' ∉ t.data →
        VimTextArea.format_markdown "l" t = MarkdownFormatter.format_text (mappedTag "l") t
        ∧ VimTextArea.format_markdown "L" t = MarkdownFormatter.format_text (mappedTag "L") t
        ∧ VimTextArea.format_markdown "q" t = MarkdownFormatter.format_text (mappedTag "q") t) := by
  refine ⟨fun s k hv hk hsel => ?_, format_agree_simple_keys, format_agree_line_keys⟩
  have he := on_key_visual_format s k hv hk hsel
  exact ⟨he, by rw [he]; rfl⟩

/-- C1 (witness for the amended theorem's hypotheses). -/
theorem C1_amended_witness :
    ((⟨⟨"say hello now", 4, 9, [], []⟩, "VISUAL"⟩ : VimState).vim_mode = "VISUAL"
      ∧ VimTextArea.get_selected_text ⟨⟨"say hello now", 4, 9, [], []⟩, "VISUAL"⟩ ≠ ""
      ∧ VimTextArea.on_key ⟨⟨"say hello now", 4, 9, [], []⟩, "VISUAL"⟩ "i"
          = VimTextArea.enter_normal_mode
              (VimTextArea.replace_selection ⟨⟨"say hello now", 4, 9, [], []⟩, "VISUAL"⟩
                (VimTextArea.format_markdown "i"
                  (VimTextArea.get_selected_text ⟨⟨"say hello now", 4, 9, [], []⟩, "VISUAL"⟩))))
    ∧ VimTextArea.format_markdown "u" "hi" = MarkdownFormatter.format_text (mappedTag "u") "hi"
    ∧ VimTextArea.format_markdown "q" "hi" = MarkdownFormatter.format_text (mappedTag "q") "hi" :=
  ⟨⟨rfl, by decide,
      (C1_amended_visual_formatting.1 ⟨⟨"say hello now", 4, 9, [], []⟩, "VISUAL"⟩ "i" rfl
        (by decide) (by decide)).1⟩,
    C1_amended_visual_formatting.2.1 "hi" "u" (by decide),
    (C1_amended_visual_formatting.2.2 "hi" (by decide) (by decide)).2.2⟩

/-- C2: the mode field starts at `"INSERT"`, a single key event maps the
three documented values into the three documented values, and hence after
any sequence of key events exactly one of INSERT, NORMAL, VISUAL is
active. -/
theorem C2_mode_invariant :
    (∀ ta : TAState, (VimTextArea.init ta).vim_mode = "INSERT")
    ∧ (∀ (s : VimState) (k : String),
        ModeOK s.vim_mode → ModeOK ((VimTextArea.on_key s k).vim_mode))
    ∧ (∀ (ta : TAState) (keys : List String),
        ModeOK ((keys.foldl VimTextArea.on_key (VimTextArea.init ta)).vim_mode)) :=
  ⟨fun _ => rfl, VimTextArea.on_key_mode_ok,
    fun ta keys => VimTextArea.foldl_mode_ok keys (VimTextArea.init ta) (Or.inl rfl)⟩

/-- C2 (witness). -/
theorem C2_mode_invariant_witness :
    ModeOK ((VimTextArea.on_key ⟨⟨"ab", 0, 0, [], []⟩, "NORMAL"⟩ "i").vim_mode)
    ∧ ModeOK ((["i", "escape", "v", "b"].foldl VimTextArea.on_key
        (VimTextArea.init ⟨"ab", 0, 0, [], []⟩)).vim_mode) :=
  ⟨C2_mode_invariant.2.1 ⟨⟨"ab", 0, 0, [], []⟩, "NORMAL"⟩ "i" (Or.inr (Or.inl rfl)),
    C2_mode_invariant.2.2 ⟨"ab", 0, 0, [], []⟩ ["i", "escape", "v", "b"]⟩

/-- C3: when a non-escape key arrives with a non-empty selection outside
VISUAL mode, `on_key` first transitions to VISUAL and then processes that
same key under the VISUAL-mode rules (`handle_visual_key`), so the key is
never handled by the INSERT or NORMAL branch while a non-empty selection
exists. -/
theorem C3_auto_visual_entry (s : VimState) (k : String)
    (hsel : s.ta.selStart ≠ s.ta.selEnd)
    (hmode : s.vim_mode ≠ "VISUAL")
    (hesc : k ≠ "escape") :
    VimTextArea.on_key s k
      = VimTextArea.handle_visual_key (VimTextArea.enter_visual_mode s) k
    ∧ (VimTextArea.enter_visual_mode s).vim_mode = "VISUAL" :=
  ⟨VimTextArea.on_key_promo s k hsel hmode hesc, rfl⟩

/-- C3 (witness). -/
theorem C3_auto_visual_entry_witness :
    VimTextArea.on_key ⟨⟨"ab", 0, 1, [], []⟩, "NORMAL"⟩ "q"
      = VimTextArea.handle_visual_key
          (VimTextArea.enter_visual_mode ⟨⟨"ab", 0, 1, [], []⟩, "NORMAL"⟩) "q"
    ∧ (VimTextArea.enter_visual_mode ⟨⟨"ab", 0, 1, [], []⟩, "NORMAL"⟩).vim_mode
        = "VISUAL" :=
  C3_auto_visual_entry ⟨⟨"ab", 0, 1, [], []⟩, "NORMAL"⟩ "q"
    (by decide) (by decide) (by decide)

/-- C10: every transition into NORMAL mode (any key with the mode previously
not NORMAL, or `escape` from anywhere) leaves an empty selection — the
selection start equals the selection end — and for the `escape` path the
collapsed position is the selection's former start. -/
theorem C10_normal_entry_collapses_selection :
    (∀ (s : VimState) (k : String),
      (s.vim_mode ≠ "NORMAL" ∨ k = "escape") →
      (VimTextArea.on_key s k).vim_mode = "NORMAL" →
      (VimTextArea.on_key s k).ta.selStart = (VimTextArea.on_key s k).ta.selEnd)
    ∧ (∀ s : VimState,
        (VimTextArea.on_key s "escape").ta.selStart = s.ta.selStart
        ∧ (VimTextArea.on_key s "escape").ta.selEnd = s.ta.selStart) := by
  constructor
  · intro s k hpre hN
    by_cases hesc : k = "escape"
    · subst hesc
      rw [VimTextArea.on_key_escape]
      exact VimTextArea.enter_normal_mode_collapsed s
    · have hmode : s.vim_mode ≠ "NORMAL" := hpre.resolve_right hesc
      by_cases hpromo : s.ta.selStart ≠ s.ta.selEnd ∧ s.vim_mode ≠ "VISUAL" ∧ k ≠ "escape"
      · rw [VimTextArea.on_key_promo s k hpromo.1 hpromo.2.1 hesc] at hN ⊢
        rcases VimTextArea.handle_visual_key_cases (VimTextArea.enter_visual_mode s) k
          with hh | ⟨s', hh⟩
        · rw [hh] at hN
          exact absurd hN (by simp [VimTextArea.enter_visual_mode])
        · rw [hh]
          exact VimTextArea.enter_normal_mode_collapsed s'
      · rw [VimTextArea.on_key_no_promo s k hesc hpromo] at hN ⊢
        by_cases hv : s.vim_mode = "VISUAL"
        · rw [if_pos hv] at hN ⊢
          rcases VimTextArea.handle_visual_key_cases s k with hh | ⟨s', hh⟩
          · rw [hh] at hN
            exact absurd hN hmode
          · rw [hh]
            exact VimTextArea.enter_normal_mode_collapsed s'
        · rw [if_neg hv, if_neg hmode] at hN ⊢
          by_cases hi : s.vim_mode = "INSERT"
          · rw [if_pos hi] at hN ⊢
            by_cases hc : k = "ctrl+c"
            · rw [if_pos hc]
              exact VimTextArea.enter_normal_mode_collapsed s
            · rw [if_neg hc] at hN
              exact absurd hN hmode
          · rw [if_neg hi] at hN
            exact absurd hN hmode
  · intro s
    rw [VimTextArea.on_key_escape]
    exact VimTextArea.enter_normal_mode_sel s

/-- C10 (witness). -/
theorem C10_normal_entry_witness :
    ((⟨⟨"hello", 0, 5, [], []⟩, "VISUAL"⟩ : VimState).vim_mode ≠ "NORMAL"
      ∨ ("z" : String) = "escape")
    ∧ (VimTextArea.on_key ⟨⟨"hello", 0, 5, [], []⟩, "VISUAL"⟩ "z").vim_mode = "NORMAL"
    ∧ (VimTextArea.on_key ⟨⟨"hello", 0, 5, [], []⟩, "VISUAL"⟩ "z").ta.selStart
        = (VimTextArea.on_key ⟨⟨"hello", 0, 5, [], []⟩, "VISUAL"⟩ "z").ta.selEnd :=
  ⟨Or.inl (by decide), by decide,
    C10_normal_entry_collapses_selection.1 ⟨⟨"hello", 0, 5, [], []⟩, "VISUAL"⟩ "z"
      (Or.inl (by decide)) (by decide)⟩
